import Mathlib

/-!
Verification of the `edcs/datagrid` browser component (src/datagrid.js).

The development shallowly embeds the component's request-state logic:

* `RequestState` mirrors `that.requestParams` (page, rowCount, sortColumn,
  sortDirection, search).  Fields that hold the result of `parseInt` are
  modelled as `Option Int`, where `none` models the JavaScript `NaN`;
  string-valued fields are `Option String`, where `none` models a JavaScript
  `null`/`undefined` value (an absent attribute or an absent query parameter).
* `Th` mirrors the datagrid-relevant attributes of a table-header cell.
* `UrlQuery` holds the results of `url.readQueryString` for the five
  recognized query parameters (an external collaborator; its results are
  inputs to the embedded code).
* The getters (`getPageNumber`, `getRowCount`, `getSortDirection`,
  `getSortColumn`, `getSearchTerm`), `loadRequestParams`, `setSortHeaders`
  and the three event handlers are translated line by line from the source;
  `stepGrid` packages the three handlers as a step function on `GridState`
  and `runEvents` folds a sequence of UI events over it.
-/

namespace Datagrid

/-- Attributes of a `th` element that the datagrid reads and writes:
`data-column` and `data-sort`.  `none` models a missing attribute
(`getAttribute` returning `null`). -/
structure Th where
  column : Option String
  sort : Option String
deriving DecidableEq

/-- The mutable `that.requestParams` object (datagrid.js lines 211-226 build
it; the event handlers mutate it in place).  `page`/`rowCount` hold JavaScript
numbers produced by `parseInt`: `none` models `NaN`. -/
structure RequestState where
  page : Option Int
  rowCount : Option Int
  sortColumn : Option String
  sortDirection : Option String
  search : Option String
deriving DecidableEq

/-- Results of `url.readQueryString` for the five recognized parameters of the
page URL; `none` models the `null` returned for an absent parameter. -/
structure UrlQuery where
  page : Option String
  rowCount : Option String
  sortColumn : Option String
  sortDirection : Option String
  search : Option String
deriving DecidableEq

/-- Default page number constant (datagrid.js line 27). -/
def DEFAULT_PAGE : Int := 1

/-- Default number of rows constant (datagrid.js line 34). -/
def DEFAULT_ROWS : Int := 15

/-- Default sort direction for columns (datagrid.js line 41). -/
def DEFAULT_SORT : String := "desc"

/-- Values used when the sort direction needs to be reversed (datagrid.js
lines 108-111).  A JavaScript property lookup with a key other than `asc` or
`desc` yields `undefined`, modelled by `none`. -/
def replacementSorts : String → Option String
  | "asc" => some "desc"
  | "desc" => some "asc"
  | _ => none

/-- Numeric value of a list of decimal digit characters. -/
def digitsVal (l : List Char) : Nat :=
  l.foldl (fun a c => 10 * a + (c.toNat - 48)) 0

/-- Model of the JavaScript builtin `parseInt(s)` on already-trimmed decimal
input: an optional sign followed by the longest prefix of decimal digits;
`none` models the `NaN` returned when no digits are found. -/
def parseIntJS (s : String) : Option Int :=
  match s.data with
  | '-' :: rest =>
      let ds := rest.takeWhile Char.isDigit
      if ds.isEmpty then none else some (-(digitsVal ds : Int))
  | '+' :: rest =>
      let ds := rest.takeWhile Char.isDigit
      if ds.isEmpty then none else some ((digitsVal ds : Int))
  | l =>
      let ds := l.takeWhile Char.isDigit
      if ds.isEmpty then none else some ((digitsVal ds : Int))

/-- Returns the current page number either from the URL or via the default
value (datagrid.js lines 233-241). -/
def getPageNumber (u : UrlQuery) : Option Int :=
  match u.page with
  | none => some DEFAULT_PAGE
  | some s => parseIntJS s

/-- Returns the current row count either from the URL or via the default
value (datagrid.js lines 248-256). -/
def getRowCount (u : UrlQuery) : Option Int :=
  match u.rowCount with
  | none => some DEFAULT_ROWS
  | some s => parseIntJS s

/-- Gets the sort direction from the URL or from the first header cell that
carries a `data-sort` attribute (datagrid.js lines 263-275); falls through to
`undefined` when neither exists. -/
def getSortDirection (u : UrlQuery) (ths : List Th) : Option String :=
  match u.sortDirection with
  | some d => some d
  | none =>
    match ths.find? (fun th => th.sort.isSome) with
    | some th => th.sort
    | none => none

/-- Gets the sort column from the URL or from the `data-column` attribute of
the first header cell that carries a `data-sort` attribute (datagrid.js lines
282-294). -/
def getSortColumn (u : UrlQuery) (ths : List Th) : Option String :=
  match u.sortColumn with
  | some c => some c
  | none =>
    match ths.find? (fun th => th.sort.isSome) with
    | some th => th.column
    | none => none

/-- Gets the current search term from the URL (datagrid.js lines 301-305). -/
def getSearchTerm (u : UrlQuery) : Option String := u.search

/-- JavaScript truthiness of a possibly-absent string value: `null`/`undefined`
and the empty string are falsy. -/
def truthyStr : Option String → Bool
  | none => false
  | some s => !(s.isEmpty)

/-- Generates the request parameter object used to grab data from the server
(datagrid.js lines 211-226): the `search` key is added only when the term is
truthy (non-null and non-empty). -/
def loadRequestParams (u : UrlQuery) (ths : List Th) : RequestState :=
  let search := getSearchTerm u
  { page := getPageNumber u
    rowCount := getRowCount u
    sortColumn := getSortColumn u ths
    sortDirection := getSortDirection u ths
    search := if truthyStr search then search else none }

/-- String stored by `setAttribute` for a possibly-undefined value: the DOM
coerces `undefined` to the string form (`null` would likewise stringify; the
two are collapsed here since neither is a well-formed direction). -/
def attrValue : Option String → String
  | some s => s
  | none => "undefined"

/-- Value interpolated into the selector string
`th[data-column=...]` (datagrid.js line 411): an unset `sortColumn`
stringifies, so the selector then matches only a column literally named by
that string. -/
def selectorValue : Option String → String
  | some s => s
  | none => "undefined"

/-- Sets the `data-sort` attribute on the first header whose `data-column`
equals `sel` (the behavior of `querySelector` + `setAttribute`); leaves the
list unchanged when no header matches. -/
def markFirst (ths : List Th) (sel : String) (v : String) : List Th :=
  match ths with
  | [] => []
  | th :: rest =>
    if th.column = some sel then { th with sort := some v } :: rest
    else th :: markFirst rest sel v

/-- Sets the sort direction data attribute for the current sort condition
(datagrid.js lines 403-416): clear `data-sort` from every header, then set it
on the first header matching the active `sortColumn`. -/
def setSortHeaders (ths : List Th) (st : RequestState) : List Th :=
  let cleared := ths.map fun th => { th with sort := none }
  markFirst cleared (selectorValue st.sortColumn) (attrValue st.sortDirection)

/-- The three UI trigger events routed through the emitters: a click on the
header at a given index, a pagination link click carrying its `data-page`
attribute, and a search form submission carrying the input's value. -/
inductive Event where
  | sortRequest (idx : Nat)
  | paginationRequest (dataPage : Option String)
  | searchRequest (value : String)
deriving DecidableEq

/-- The component state the event handlers read and write: the request
parameters and the header cells' current attributes. -/
structure GridState where
  requestParams : RequestState
  ths : List Th
deriving DecidableEq

/-- State mutation of the `sort-request` handler (datagrid.js lines 131-148):
read `data-column` and `data-sort` from the clicked header; an absent
`data-sort` yields the default direction, a present one is looked up in
`replacementSorts`. -/
def sortRequestUpdate (st : RequestState) (el : Th) : RequestState :=
  let sortColumn := el.column
  let sortDirection :=
    match el.sort with
    | none => some DEFAULT_SORT
    | some d => replacementSorts d
  { st with sortColumn := sortColumn, sortDirection := sortDirection }

/-- One step of the event coordinator: the `sort-request` handler (lines
131-148, followed by `setSortHeaders`), the `pagination-request` handler
(lines 153-160, `page := parseInt(el.getAttribute('data-page'))`, where an
absent attribute parses to `NaN`), and the `search-request` handler (lines
165-171, `page := 1; search := value`).  A click index outside the header
list leaves the state unchanged (clicks only arrive from existing headers). -/
def stepGrid (g : GridState) : Event → GridState
  | Event.sortRequest idx =>
    match g.ths[idx]? with
    | none => g
    | some el =>
      let st := sortRequestUpdate g.requestParams el
      { requestParams := st, ths := setSortHeaders g.ths st }
  | Event.paginationRequest dataPage =>
    { g with requestParams := { g.requestParams with page := dataPage.bind parseIntJS } }
  | Event.searchRequest v =>
    { g with requestParams := { g.requestParams with page := some 1, search := some v } }

/-- Component initialization (constructor, datagrid.js lines 103 and 180):
`requestParams` is derived from the URL and the header markup, after which
`setSortHeaders` rewrites the headers' `data-sort` attributes. -/
def initGrid (u : UrlQuery) (ths : List Th) : GridState :=
  let st := loadRequestParams u ths
  { requestParams := st, ths := setSortHeaders ths st }

/-- Folds a sequence of UI events over the component state. -/
def runEvents (g : GridState) (evs : List Event) : GridState :=
  evs.foldl stepGrid g

/-- Side effects an event handler performs besides mutating the state. -/
inductive Action where
  | showLoadingOverlay
  | loadData
deriving DecidableEq

/-- Each of the three handlers shows the loading overlay and then triggers a
reload via `loadData` (datagrid.js lines 132/147, 154/159, 166/170). -/
def handlerActions : Event → List Action
  | Event.sortRequest _ => [Action.showLoadingOverlay, Action.loadData]
  | Event.paginationRequest _ => [Action.showLoadingOverlay, Action.loadData]
  | Event.searchRequest _ => [Action.showLoadingOverlay, Action.loadData]

/-- JavaScript query-string rendering of a number field: `NaN` stringifies. -/
def jsNumToString : Option Int → String
  | none => "NaN"
  | some n => toString n

/-- The query parameters serialized into the outgoing GET request
(datagrid.js lines 343-344, `superagent.get(src).query(requestParams)`):
superagent's client serializer keeps a key when its value is neither `null`
nor `undefined` (empty strings and `NaN` included), in the object's insertion
order page, rowCount, sortColumn, sortDirection, search. -/
def queryParams (st : RequestState) : List (String × String) :=
  [("page", jsNumToString st.page), ("rowCount", jsNumToString st.rowCount)]
  ++ (match st.sortColumn with | some c => [("sortColumn", c)] | none => [])
  ++ (match st.sortDirection with | some d => [("sortDirection", d)] | none => [])
  ++ (match st.search with | some s => [("search", s)] | none => [])

/-- Browser-history operations offered by the history collaborator. -/
inductive HistoryOp where
  | replace
  | push
deriving DecidableEq

/-- JavaScript truthiness of a possibly-undefined boolean property read. -/
def truthyBool : Option Bool → Bool
  | none => false
  | some b => b

/-- The `data-ready` listener (datagrid.js lines 116-126) is an anonymous
`function`, so EventEmitter invokes it with `this` bound to the emitter; a
plain EventEmitter has no `firstLoad` property, hence the read
`this.firstLoad` yields `undefined`. -/
def emitterFirstLoad : Option Bool := none

/-- History operation performed by the `data-ready` handler (datagrid.js
lines 121-125): `if (this.firstLoad) history.replace(...) else
history.push(...)`. -/
def dataReadyHistoryOp : HistoryOp :=
  if truthyBool emitterFirstLoad then HistoryOp.replace else HistoryOp.push

/-- The `that.firstLoad` field: assigned `true` at construction (datagrid.js
line 20) and never reassigned anywhere in the file; its value before the
n-th successful load. -/
def firstLoadField (_loadIndex : Nat) : Bool := true

/-- History operations performed over a run with the given number of
successful loads. -/
def historyOps (loads : Nat) : List HistoryOp :=
  List.replicate loads dataReadyHistoryOp

/-- The numeric fields of a fetched response body (`this.data.body`): the
JSON endpoint's `current`, `rowCount` and `total` values. -/
structure ServerBody where
  current : Nat
  rowCount : Nat
  total : Nat
deriving DecidableEq

/-- ECMAScript `Math.round(x)`: the floor of `x + 0.5` (ties round up),
modelled over the exact rationals (floating-point rounding error in the
division is out of scope). -/
def jsMathRound (x : ℚ) : Int := ⌊x + 1 / 2⌋

/-- Arguments handed to the pagination collaborator. -/
structure PaginationArgs where
  page : Option Int
  pageCount : Int
  requestParams : RequestState
deriving DecidableEq

/-- What `parsePagination` (datagrid.js lines 423-426) passes to the
pagination collaborator: the current `requestParams.page`,
`Math.round(this.data.body.total / this.data.body.rowCount)`, and a deep
copy of the request parameters. -/
def parsePaginationArgs (st : RequestState) (body : ServerBody) : PaginationArgs :=
  { page := st.page
    pageCount := jsMathRound ((body.total : ℚ) / (body.rowCount : ℚ))
    requestParams := st }

/-- Untyped JavaScript values as they flow through the superagent callback:
`undefined`, an Error object (opaque identity), or a response object. -/
inductive JsValue where
  | undef
  | errObj (id : Nat)
  | responseObj (body : ServerBody)
deriving DecidableEq

/-- The superagent `end` callback (datagrid.js lines 345-347):
`function (error, response) { that.emitter.emit('data-ready', response); }`.
The value returned is the payload handed to the `data-ready` handler. -/
def endCallbackPayload (error response : JsValue) : JsValue := response

/-- Modelled from the spec sentence on initial resolution: a value is taken
from the URL query string (if present), else from the table header markup
(if present), else from the hard-coded default.  Used to compare the code's
initialization against the spec's precedence order. -/
def specResolve {A : Type} (fromUrl fromMarkup : Option A) (dflt : A) : A :=
  match fromUrl with
  | some v => v
  | none =>
    match fromMarkup with
    | some v => v
    | none => dflt

/-- The page half of the spec's RequestState invariant: a genuine integer
(not `NaN`) that is at least 1. -/
def pageOk (p : Option Int) : Prop := ∃ k, p = some k ∧ 1 ≤ k

/-- Sort directions the component can actually hold: `asc`, `desc`, or
unset. -/
def dirValueOk (d : Option String) : Prop :=
  d = none ∨ d = some "asc" ∨ d = some "desc"

/-- Values the `data-sort` attribute of a header can hold once the component
manages it: absent, a real direction, or the stringified unset direction
written by `setAttribute`. -/
def thSortOk (th : Th) : Prop :=
  th.sort = none ∨ th.sort = some "asc" ∨ th.sort = some "desc"
  ∨ th.sort = some "undefined"

/-- The invariant asserted by the claim under examination: page is an integer
at least 1 and sortDirection is `asc` or `desc`. -/
def C2Claim (st : RequestState) : Prop :=
  pageOk st.page ∧ (st.sortDirection = some "asc" ∨ st.sortDirection = some "desc")

/-- Well-formedness of the seeding URL's `page` parameter: absent, or parsing
to an integer at least 1. -/
def UrlPageOk : Option String → Prop
  | none => True
  | some s => ∃ k, parseIntJS s = some k ∧ 1 ≤ k

/-- Well-formedness of the seeding URL's `sortDirection` parameter. -/
def UrlDirOk (u : UrlQuery) : Prop :=
  u.sortDirection = none ∨ u.sortDirection = some "asc" ∨ u.sortDirection = some "desc"

/-- Well-formedness of the host page's header markup: any declared
`data-sort` default is a real direction. -/
def ThsSeedOk (ths : List Th) : Prop :=
  ∀ th ∈ ths, th.sort = none ∨ th.sort = some "asc" ∨ th.sort = some "desc"

/-- Well-formedness of a UI event: pagination links produced by the
pagination collaborator carry a `data-page` attribute parsing to an integer
at least 1. -/
def EventOk : Event → Prop
  | Event.paginationRequest dp => ∃ s k, dp = some s ∧ parseIntJS s = some k ∧ 1 ≤ k
  | Event.sortRequest _ => True
  | Event.searchRequest _ => True

/-- Inductive invariant of the component state used to prove the reachable
states well-formed. -/
def GridInv (g : GridState) : Prop :=
  pageOk g.requestParams.page ∧ dirValueOk g.requestParams.sortDirection
  ∧ ∀ th ∈ g.ths, thSortOk th

theorem markFirst_mem {l : List Th} {sel v : String} {th : Th}
    (h : th ∈ markFirst l sel v) : th.sort = some v ∨ th ∈ l := by
  induction l with
  | nil => cases h
  | cons a rest ih =>
    rw [markFirst] at h
    by_cases ha : a.column = some sel
    · rw [if_pos ha] at h
      rcases List.mem_cons.mp h with rfl | h
      · exact Or.inl rfl
      · exact Or.inr (List.mem_cons_of_mem _ h)
    · rw [if_neg ha] at h
      rcases List.mem_cons.mp h with rfl | h
      · exact Or.inr (List.mem_cons_self _ _)
      · rcases ih h with h | h
        · exact Or.inl h
        · exact Or.inr (List.mem_cons_of_mem _ h)

theorem setSortHeaders_sortOk {ths : List Th} {st : RequestState}
    (hd : dirValueOk st.sortDirection) :
    ∀ th ∈ setSortHeaders ths st, thSortOk th := by
  intro th hth
  rcases markFirst_mem hth with h | h
  · rcases hd with hd | hd | hd <;> rw [hd] at h
    · exact Or.inr (Or.inr (Or.inr h))
    · exact Or.inr (Or.inl h)
    · exact Or.inr (Or.inr (Or.inl h))
  · rcases List.mem_map.mp h with ⟨y, _, rfl⟩
    exact Or.inl rfl

theorem initGrid_inv (u : UrlQuery) (ths : List Th)
    (hp : UrlPageOk u.page) (hd : UrlDirOk u) (hths : ThsSeedOk ths) :
    GridInv (initGrid u ths) := by
  have hdir : dirValueOk (getSortDirection u ths) := by
    rcases hd with hd | hd | hd <;> rw [getSortDirection, hd]
    · cases hfind : ths.find? (fun th => th.sort.isSome) with
      | none => exact Or.inl rfl
      | some th =>
        show dirValueOk th.sort
        rcases hths th (List.mem_of_find?_eq_some hfind) with h | h | h <;> rw [h]
        · exact Or.inl rfl
        · exact Or.inr (Or.inl rfl)
        · exact Or.inr (Or.inr rfl)
    · exact Or.inr (Or.inl rfl)
    · exact Or.inr (Or.inr rfl)
  refine ⟨?_, hdir, setSortHeaders_sortOk hdir⟩
  rw [initGrid]
  show pageOk (getPageNumber u)
  rw [getPageNumber]
  cases hpage : u.page with
  | none => exact ⟨1, rfl, le_refl 1⟩
  | some s =>
    rw [hpage] at hp
    exact hp

theorem stepGrid_inv {g : GridState} {ev : Event}
    (hg : GridInv g) (hev : EventOk ev) : GridInv (stepGrid g ev) := by
  obtain ⟨hpage, hdir, hths⟩ := hg
  cases ev with
  | sortRequest idx =>
    rw [stepGrid]
    cases hget : g.ths[idx]? with
    | none => exact ⟨hpage, hdir, hths⟩
    | some el =>
      have hdir2 : dirValueOk (sortRequestUpdate g.requestParams el).sortDirection := by
        rw [sortRequestUpdate]
        rcases hths el (List.getElem?_mem hget) with h | h | h | h <;> rw [h]
        · exact Or.inr (Or.inr rfl)
        · exact Or.inr (Or.inr rfl)
        · exact Or.inr (Or.inl rfl)
        · exact Or.inl rfl
      exact ⟨hpage, hdir2, setSortHeaders_sortOk hdir2⟩
  | paginationRequest dp =>
    obtain ⟨s, k, rfl, hparse, hk⟩ := hev
    refine ⟨⟨k, ?_, hk⟩, hdir, hths⟩
    rw [stepGrid]
    show (some s).bind parseIntJS = some k
    rw [Option.bind, hparse]
  | searchRequest v =>
    exact ⟨⟨1, rfl, le_refl 1⟩, hdir, hths⟩

theorem runEvents_inv {g : GridState} {evs : List Event}
    (hg : GridInv g) (hevs : ∀ ev ∈ evs, EventOk ev) : GridInv (runEvents g evs) := by
  induction evs generalizing g with
  | nil => exact hg
  | cons e es ih =>
    exact ih (stepGrid_inv hg (hevs e (List.mem_cons_self _ _)))
      (fun ev h => hevs ev (List.mem_cons_of_mem _ h))

theorem markFirst_append_of_mem (l1 l2 : List Th) (th : Th) (sel v : String)
    (h1 : ∀ x ∈ l1, x.column ≠ some sel) (hth : th.column = some sel) :
    markFirst (l1 ++ th :: l2) sel v = l1 ++ { th with sort := some v } :: l2 := by
  induction l1 with
  | nil =>
    rw [List.nil_append, markFirst, if_pos hth, List.nil_append]
  | cons a l ih =>
    have ha : ¬ (a.column = some sel) := h1 a (List.mem_cons_self _ _)
    rw [List.cons_append, markFirst, if_neg ha,
      ih (fun x hx => h1 x (List.mem_cons_of_mem _ hx)), List.cons_append]

theorem setSortHeaders_append (pre post : List Th) (el : Th) (st : RequestState)
    (c : String) (hcol : st.sortColumn = some c)
    (hpre : ∀ th ∈ pre, th.column ≠ some c) (hel : el.column = some c) :
    setSortHeaders (pre ++ el :: post) st
      = pre.map (fun th => { th with sort := none })
        ++ { el with sort := some (attrValue st.sortDirection) }
          :: post.map (fun th => { th with sort := none }) := by
  show markFirst ((pre ++ el :: post).map fun th => { th with sort := none })
      (selectorValue st.sortColumn) (attrValue st.sortDirection) = _
  rw [hcol, List.map_append, List.map_cons]
  exact markFirst_append_of_mem _ _ _ _ _
    (by
      intro x hx
      rcases List.mem_map.mp hx with ⟨y, hy, rfl⟩
      exact hpre y hy)
    hel

theorem getElem_append_cons_self {α : Type} (l1 l2 : List α) (x : α) {n : Nat}
    (h : n = l1.length) : (l1 ++ x :: l2)[n]? = some x := by
  subst h
  rw [List.getElem?_append_right (le_refl _), Nat.sub_self, List.getElem?_cons_zero]

theorem sortToggle_twice_aux (st : RequestState) (pre post : List Th) (el : Th)
    (c d d2 : String)
    (hcol : st.sortColumn = some c) (hdir : st.sortDirection = some d)
    (hrep1 : replacementSorts d = some d2) (hrep2 : replacementSorts d2 = some d)
    (hpre : ∀ th ∈ pre, th.column ≠ some c) (hel : el.column = some c) :
    (runEvents { requestParams := st, ths := setSortHeaders (pre ++ el :: post) st }
      [Event.sortRequest pre.length, Event.sortRequest pre.length]).requestParams.sortDirection
      = some d := by
  have hmapmem : ∀ th ∈ pre.map (fun th => { th with sort := none }), th.column ≠ some c := by
    intro th hth
    rcases List.mem_map.mp hth with ⟨y, hy, rfl⟩
    exact hpre y hy
  have h1 : setSortHeaders (pre ++ el :: post) st
      = pre.map (fun th => { th with sort := none })
        ++ { el with sort := some d } :: post.map (fun th => { th with sort := none }) := by
    rw [setSortHeaders_append pre post el st c hcol hpre hel, hdir]
    rfl
  have hget1 : (pre.map (fun th => { th with sort := none })
      ++ { el with sort := some d } :: post.map (fun th => { th with sort := none }))[pre.length]?
      = some { el with sort := some d } :=
    getElem_append_cons_self _ _ _ (List.length_map _ _).symm
  rw [runEvents]
  simp only [List.foldl_cons, List.foldl_nil]
  rw [h1]
  simp only [stepGrid, hget1]
  rw [show sortRequestUpdate st { el with sort := some d }
      = { st with sortColumn := el.column, sortDirection := replacementSorts d } from rfl, hrep1]
  have h2 : setSortHeaders
      (pre.map (fun th => { th with sort := none })
        ++ { el with sort := some d } :: post.map (fun th => { th with sort := none }))
      { st with sortColumn := el.column, sortDirection := some d2 }
      = (pre.map (fun th => { th with sort := none })).map (fun th => { th with sort := none })
        ++ { el with sort := some d2 }
          :: (post.map (fun th => { th with sort := none })).map (fun th => { th with sort := none }) := by
    rw [setSortHeaders_append (pre.map (fun th => { th with sort := none }))
      (post.map (fun th => { th with sort := none })) { el with sort := some d }
      { st with sortColumn := el.column, sortDirection := some d2 } c hel hmapmem hel]
    rfl
  rw [h2]
  have hget2 : ((pre.map (fun th => { th with sort := none })).map (fun th => { th with sort := none })
      ++ { el with sort := some d2 }
        :: (post.map (fun th => { th with sort := none })).map (fun th => { th with sort := none }))[pre.length]?
      = some { el with sort := some d2 } :=
    getElem_append_cons_self _ _ _ (by rw [List.length_map, List.length_map])
  rw [hget2]
  exact hrep2

theorem queryParams_no_sort_keys {st : RequestState}
    (hc : st.sortColumn = none) (hd : st.sortDirection = none) :
    ∀ p ∈ queryParams st, p.1 ≠ "sortColumn" ∧ p.1 ≠ "sortDirection" := by
  intro p hp
  rw [queryParams, hc, hd] at hp
  cases hs : st.search with
  | none =>
    rw [hs] at hp
    simp only [List.append_nil, List.mem_cons, List.not_mem_nil, or_false] at hp
    rcases hp with rfl | rfl <;> exact ⟨by simp, by simp⟩
  | some s =>
    rw [hs] at hp
    simp only [List.nil_append, List.append_assoc, List.mem_append, List.mem_cons,
      List.not_mem_nil, or_false] at hp
    rcases hp with (rfl | rfl) | rfl <;> exact ⟨by simp, by simp⟩

theorem jsMathRound_95_10 : jsMathRound (((95 : ℕ) : ℚ) / ((10 : ℕ) : ℚ)) = 10 := by
  rw [jsMathRound, Int.floor_eq_iff] <;> norm_num

theorem jsMathRound_94_10 : jsMathRound (((94 : ℕ) : ℚ) / ((10 : ℕ) : ℚ)) = 9 := by
  rw [jsMathRound, Int.floor_eq_iff] <;> norm_num

theorem jsMathRound_95_15 : jsMathRound (((95 : ℕ) : ℚ) / ((15 : ℕ) : ℚ)) = 6 := by
  rw [jsMathRound, Int.floor_eq_iff] <;> norm_num

/-- C1: evaluation of the `data-ready` handler's history branch.  The listener
is invoked with `this` bound to the EventEmitter, which has no `firstLoad`
property, so the condition `this.firstLoad` is undefined and falsy; moreover
`that.firstLoad` is never reassigned after construction.  Consequently every
successful load — the first one included — performs a history push, and no
replace ever occurs, contradicting the claim that the first load replaces. -/
theorem C1_history_always_pushes :
    dataReadyHistoryOp = HistoryOp.push
    ∧ historyOps 2 = [HistoryOp.push, HistoryOp.push]
    ∧ ∀ n, firstLoadField n = true :=
  ⟨rfl, rfl, fun _ => rfl⟩

/-- C2 (counterexample): seeding from the URL `?page=0` on a page with no
default-sort header yields a reachable RequestState (the initial one, before
any event) with page = 0 and sortDirection unset, falsifying the claimed
invariant that page is at least 1 and sortDirection is asc or desc. -/
theorem C2_claim_counterexample :
    ¬ C2Claim (runEvents (initGrid ⟨some "0", none, none, none, none⟩ []) []).requestParams := by
  rintro ⟨⟨k, hk, h1⟩, -⟩
  rw [show (runEvents (initGrid ⟨some "0", none, none, none, none⟩ []) []).requestParams.page
      = some 0 from rfl] at hk
  injection hk with hk
  omega

/-- C2 (amended): provided the seed URL's page parameter, when present, parses
to an integer at least 1, its sortDirection parameter, when present, is asc or
desc, every header's declared `data-sort` default is asc or desc, and every
pagination link carries a `data-page` parsing to an integer at least 1, then
every reachable RequestState (after initial seeding and any sequence of
sort-request, pagination-request and search-request events) has page an
integer at least 1 and sortDirection equal to asc, desc, or unset. -/
theorem C2_amended_invariant (u : UrlQuery) (ths : List Th) (evs : List Event)
    (hp : UrlPageOk u.page) (hd : UrlDirOk u) (hths : ThsSeedOk ths)
    (hevs : ∀ ev ∈ evs, EventOk ev) :
    pageOk (runEvents (initGrid u ths) evs).requestParams.page
    ∧ dirValueOk (runEvents (initGrid u ths) evs).requestParams.sortDirection :=
  have h := runEvents_inv (initGrid_inv u ths hp hd hths) hevs
  ⟨h.1, h.2.1⟩

/-- Witness for the amended C2 at a concrete seed and event sequence. -/
theorem C2_amended_invariant_witness :
    pageOk (runEvents (initGrid ⟨none, none, none, none, none⟩ [⟨some "id", some "asc"⟩])
      [Event.searchRequest "report", Event.sortRequest 0]).requestParams.page
    ∧ dirValueOk (runEvents (initGrid ⟨none, none, none, none, none⟩ [⟨some "id", some "asc"⟩])
      [Event.searchRequest "report", Event.sortRequest 0]).requestParams.sortDirection :=
  C2_amended_invariant ⟨none, none, none, none, none⟩ [⟨some "id", some "asc"⟩]
    [Event.searchRequest "report", Event.sortRequest 0]
    trivial (Or.inl rfl)
    (by
      intro th h
      rw [List.mem_singleton] at h
      subst h
      exact Or.inr (Or.inl rfl))
    (by
      intro ev h
      rcases List.mem_cons.mp h with rfl | h2
      · trivial
      · rcases List.mem_cons.mp h2 with rfl | h3
        · trivial
        · cases h3)

/-- C3 (counterexample): with sortColumn = id, sortDirection = desc and the
headers marked consistently, two successive sort-requests on the other column
(index 1, `name`) leave sortDirection = asc, not the original desc, because
the first click on an unmarked header falls back to the default direction
desc and the second flips it: toggling twice is not the identity when the
clicked column is not the currently sorted one. -/
theorem C3_claim_counterexample :
    (runEvents
        { requestParams := ⟨some 1, some 15, some "id", some "desc", none⟩,
          ths := setSortHeaders [⟨some "id", none⟩, ⟨some "name", none⟩]
            ⟨some 1, some 15, some "id", some "desc", none⟩ }
        [Event.sortRequest 1, Event.sortRequest 1]).requestParams.sortDirection
      ≠ (⟨some 1, some 15, some "id", some "desc", none⟩ : RequestState).sortDirection
    ∧ (runEvents
        { requestParams := ⟨some 1, some 15, some "id", some "desc", none⟩,
          ths := setSortHeaders [⟨some "id", none⟩, ⟨some "name", none⟩]
            ⟨some 1, some 15, some "id", some "desc", none⟩ }
        [Event.sortRequest 1, Event.sortRequest 1]).requestParams.sortDirection
      = some "asc" := by decide

/-- C3 (amended): for every valid RequestState whose sortDirection is asc or
desc, toggling the header of the currently sorted column twice in succession
(the header the marking pass flagged: the first one carrying the active
data-column) returns sortDirection to the value it had before the first
toggle — present implies opposite of current, so two applications are the
identity on the direction of the active column. -/
theorem C3_amended_double_toggle (st : RequestState) (pre post : List Th) (el : Th)
    (c d : String)
    (hcol : st.sortColumn = some c) (hdir : st.sortDirection = some d)
    (hd : d = "asc" ∨ d = "desc")
    (hpre : ∀ th ∈ pre, th.column ≠ some c) (hel : el.column = some c) :
    (runEvents { requestParams := st, ths := setSortHeaders (pre ++ el :: post) st }
      [Event.sortRequest pre.length, Event.sortRequest pre.length]).requestParams.sortDirection
      = st.sortDirection := by
  rw [hdir]
  rcases hd with rfl | rfl
  · exact sortToggle_twice_aux st pre post el c "asc" "desc" hcol hdir rfl rfl hpre hel
  · exact sortToggle_twice_aux st pre post el c "desc" "asc" hcol hdir rfl rfl hpre hel

/-- Witness for the amended C3: double-toggling the single marked `id` header
restores sortDirection = asc. -/
theorem C3_amended_double_toggle_witness :
    (runEvents
        { requestParams := ⟨some 1, some 15, some "id", some "asc", none⟩,
          ths := setSortHeaders [⟨some "id", none⟩]
            ⟨some 1, some 15, some "id", some "asc", none⟩ }
        [Event.sortRequest 0, Event.sortRequest 0]).requestParams.sortDirection
      = (⟨some 1, some 15, some "id", some "asc", none⟩ : RequestState).sortDirection :=
  C3_amended_double_toggle ⟨some 1, some 15, some "id", some "asc", none⟩ [] []
    ⟨some "id", none⟩ "id" "asc" rfl rfl (Or.inl rfl)
    (by intro th h; cases h) rfl

/-- C4: handling a search-request sets RequestState.page to 1 and
RequestState.search to the submitted term, whatever the prior state, and the
handler triggers a reload. -/
theorem C4_search_request_resets_page (g : GridState) (term : String) :
    (stepGrid g (Event.searchRequest term)).requestParams.page = some 1
    ∧ (stepGrid g (Event.searchRequest term)).requestParams.search = some term
    ∧ Action.loadData ∈ handlerActions (Event.searchRequest term) :=
  ⟨rfl, rfl, List.mem_cons_of_mem _ (List.mem_cons_self _ _)⟩

/-- C5: the total page count passed to the pagination collaborator is the
nearest-integer rounding (`Math.round`, modelled exactly) of total divided by
rowCount; in particular total = 95, rowCount = 10 gives 10 pages and
total = 94, rowCount = 10 gives 9 pages. -/
theorem C5_page_count_rounding (st : RequestState) (b : ServerBody)
    (_h : 0 < b.rowCount) :
    (parsePaginationArgs st b).pageCount = round ((b.total : ℚ) / (b.rowCount : ℚ))
    ∧ (parsePaginationArgs st ⟨1, 10, 95⟩).pageCount = 10
    ∧ (parsePaginationArgs st ⟨1, 10, 94⟩).pageCount = 9 :=
  ⟨by
    rw [show (parsePaginationArgs st b).pageCount
        = jsMathRound ((b.total : ℚ) / (b.rowCount : ℚ)) from rfl, jsMathRound, round_eq],
   jsMathRound_95_10, jsMathRound_94_10⟩

/-- Witness for C5 at total = 95, rowCount = 10. -/
theorem C5_page_count_rounding_witness :
    0 < (10 : ℕ)
    ∧ ((parsePaginationArgs ⟨some 1, some 15, none, none, none⟩ ⟨1, 10, 95⟩).pageCount
        = round (((95 : ℕ) : ℚ) / ((10 : ℕ) : ℚ))
      ∧ (parsePaginationArgs ⟨some 1, some 15, none, none, none⟩ ⟨1, 10, 95⟩).pageCount = 10
      ∧ (parsePaginationArgs ⟨some 1, some 15, none, none, none⟩ ⟨1, 10, 94⟩).pageCount = 9) :=
  ⟨by decide,
   C5_page_count_rounding ⟨some 1, some 15, none, none, none⟩ ⟨1, 10, 95⟩ (by decide)⟩

/-- C6: at initialization each RequestState field is resolved with the
precedence URL query string over table-header default-sort markup over
hard-coded defaults (page = 1, rowCount = 15; no markup source exists for
page and rowCount); and if no URL sort parameters exist and no header is
flagged as default-sort, sortColumn and sortDirection both remain unset and
no sort parameter appears in the outgoing query. -/
theorem C6_init_precedence (u : UrlQuery) (ths : List Th) :
    (loadRequestParams u ths).page
      = specResolve (u.page.map parseIntJS) none (some DEFAULT_PAGE)
    ∧ (loadRequestParams u ths).rowCount
      = specResolve (u.rowCount.map parseIntJS) none (some DEFAULT_ROWS)
    ∧ (loadRequestParams u ths).sortColumn
      = specResolve (u.sortColumn.map some)
          ((ths.find? (fun th => th.sort.isSome)).map (fun th => th.column)) none
    ∧ (loadRequestParams u ths).sortDirection
      = specResolve (u.sortDirection.map some)
          ((ths.find? (fun th => th.sort.isSome)).map (fun th => th.sort)) none
    ∧ (u.sortColumn = none → u.sortDirection = none
        → ths.find? (fun th => th.sort.isSome) = none
        → (loadRequestParams u ths).sortColumn = none
          ∧ (loadRequestParams u ths).sortDirection = none
          ∧ ∀ p ∈ queryParams (loadRequestParams u ths),
              p.1 ≠ "sortColumn" ∧ p.1 ≠ "sortDirection") := by
  obtain ⟨up, urc, usc, usd, us⟩ := u
  refine ⟨?_, ?_, ?_, ?_, ?_⟩
  · cases up <;> rfl
  · cases urc <;> rfl
  · cases usc with
    | some c => rfl
    | none =>
      cases hf : ths.find? (fun th => th.sort.isSome) <;>
        simp [loadRequestParams, getSortColumn, hf, specResolve]
  · cases usd with
    | some d => rfl
    | none =>
      cases hf : ths.find? (fun th => th.sort.isSome) <;>
        simp [loadRequestParams, getSortDirection, hf, specResolve]
  · intro h1 h2 h3
    subst h1
    subst h2
    have hsc : (loadRequestParams ⟨up, urc, none, none, us⟩ ths).sortColumn = none := by
      simp [loadRequestParams, getSortColumn, h3]
    have hsd : (loadRequestParams ⟨up, urc, none, none, us⟩ ths).sortDirection = none := by
      simp [loadRequestParams, getSortDirection, h3]
    exact ⟨hsc, hsd, queryParams_no_sort_keys hsc hsd⟩

/-- Witness for C6 at a seed with no URL parameters and no headers: both sort
fields stay unset. -/
theorem C6_init_precedence_witness :
    (loadRequestParams ⟨none, none, none, none, none⟩ []).sortColumn = none
    ∧ (loadRequestParams ⟨none, none, none, none, none⟩ []).sortDirection = none :=
  ⟨((C6_init_precedence ⟨none, none, none, none, none⟩ []).2.2.2.2 rfl rfl rfl).1,
   ((C6_init_precedence ⟨none, none, none, none, none⟩ []).2.2.2.2 rfl rfl rfl).2.1⟩

/-- C7 (counterexample): on a transport failure superagent invokes the end
callback with an Error object and an undefined response; the payload the
callback hands to data-ready is then undefined — the response argument — and
is not the error object, falsifying the claim that the error object itself is
passed into the handler. -/
theorem C7_claim_counterexample :
    endCallbackPayload (JsValue.errObj 0) JsValue.undef ≠ JsValue.errObj 0
    ∧ endCallbackPayload (JsValue.errObj 0) JsValue.undef = JsValue.undef := by decide

/-- C7 (amended): the end callback forwards its response argument into the
data-ready handler unconditionally — no branching on the error, no FetchFailed
outcome, no separate error path — and the error object is discarded; on a
network/transport failure (response undefined) the handler therefore receives
undefined. -/
theorem C7_amended_response_forwarded (err resp : JsValue) :
    endCallbackPayload err resp = resp
    ∧ (∀ err2, endCallbackPayload err resp = endCallbackPayload err2 resp)
    ∧ endCallbackPayload err JsValue.undef = JsValue.undef :=
  ⟨rfl, fun _ => rfl, rfl⟩

/-- C8 (counterexample): submitting an empty search term from the default
initial state stores search = "" in RequestState, and the outgoing GET then
carries the pair ("search", "") — the parameter is present although the term
is empty, falsifying the claim that it is omitted rather than sent empty. -/
theorem C8_claim_counterexample :
    ("search", "") ∈ queryParams
      (stepGrid (initGrid ⟨none, none, none, none, none⟩ [])
        (Event.searchRequest "")).requestParams
    ∧ "".isEmpty = true := by decide

/-- C8 (amended): the search parameter is present in an outgoing request
exactly when RequestState.search is set; at initialization it is omitted when
the URL search parameter is absent or empty (so the initial request never
carries an empty search), but a search-request stores the submitted term
unconditionally, so an empty submitted term is sent as an empty search
parameter. -/
theorem C8_amended_search_presence (u : UrlQuery) (ths : List Th) (st : RequestState) :
    ((∃ v, ("search", v) ∈ queryParams st) ↔ st.search ≠ none)
    ∧ ∀ s, (loadRequestParams u ths).search = some s → s ≠ "" := by
  constructor
  · constructor
    · rintro ⟨v, hv⟩ hnone
      rw [queryParams, hnone] at hv
      rcases hc : st.sortColumn with _ | c <;> rcases hd : st.sortDirection with _ | d <;>
        rw [hc, hd] at hv <;> simp at hv
    · intro hne
      rcases hs : st.search with _ | s
      · exact absurd hs hne
      · refine ⟨s, ?_⟩
        rw [queryParams, hs]
        simp
  · intro s h
    have h2 : (if truthyStr u.search then u.search else none) = some s := h
    rcases hu : u.search with _ | str
    · rw [hu] at h2
      simp [truthyStr] at h2
    · rw [hu] at h2
      by_cases he : str.isEmpty
      · simp [truthyStr, he] at h2
      · simp [truthyStr, he] at h2
        subst h2
        intro hempty
        rw [hempty] at he
        exact absurd (by decide : "".isEmpty = true) he

/-- Witness for the amended C8: with search set to "q" the parameter is
present; the default initial state never yields an empty search term. -/
theorem C8_amended_search_presence_witness :
    ((∃ v, ("search", v) ∈ queryParams ⟨some 1, some 15, none, none, some "q"⟩)
      ↔ (⟨some 1, some 15, none, none, some "q"⟩ : RequestState).search ≠ none)
    ∧ ∀ s, (loadRequestParams ⟨none, none, none, none, none⟩ []).search = some s → s ≠ "" :=
  C8_amended_search_presence ⟨none, none, none, none, none⟩ []
    ⟨some 1, some 15, none, none, some "q"⟩

/-- C9: a sort-request mutates only sortColumn and sortDirection: page,
rowCount and search are unchanged for every prior state, and the reload's
query equals the query of the prior parameters with only the sort fields
replaced. -/
theorem C9_sort_request_frame (g : GridState) (idx : Nat) :
    (stepGrid g (Event.sortRequest idx)).requestParams.page = g.requestParams.page
    ∧ (stepGrid g (Event.sortRequest idx)).requestParams.rowCount = g.requestParams.rowCount
    ∧ (stepGrid g (Event.sortRequest idx)).requestParams.search = g.requestParams.search
    ∧ queryParams (stepGrid g (Event.sortRequest idx)).requestParams
      = queryParams { g.requestParams with
          sortColumn := (stepGrid g (Event.sortRequest idx)).requestParams.sortColumn,
          sortDirection := (stepGrid g (Event.sortRequest idx)).requestParams.sortDirection } := by
  rw [stepGrid]
  cases g.ths[idx]? with
  | none => exact ⟨rfl, rfl, rfl, rfl⟩
  | some el => exact ⟨rfl, rfl, rfl, rfl⟩

/-- C10: the page count handed to the pagination collaborator is computed from
the response body's own total and rowCount fields, independent of
RequestState.rowCount; in particular a response with rowCount = 10 and
total = 95 yields 10 pages even when the requested rowCount was 15 (which
would have given 6). -/
theorem C10_page_count_from_body (st st2 : RequestState) (b : ServerBody) :
    (parsePaginationArgs st b).pageCount = (parsePaginationArgs st2 b).pageCount
    ∧ (parsePaginationArgs st b).pageCount = jsMathRound ((b.total : ℚ) / (b.rowCount : ℚ))
    ∧ (parsePaginationArgs ⟨some 1, some 15, none, none, none⟩ ⟨1, 10, 95⟩).pageCount = 10
    ∧ (parsePaginationArgs ⟨some 1, some 15, none, none, none⟩ ⟨1, 10, 95⟩).pageCount
        ≠ jsMathRound (((95 : ℕ) : ℚ) / ((15 : ℕ) : ℚ)) := by
  refine ⟨rfl, rfl, jsMathRound_95_10, ?_⟩
  rw [jsMathRound_95_15,
    show (parsePaginationArgs ⟨some 1, some 15, none, none, none⟩ ⟨1, 10, 95⟩).pageCount
      = jsMathRound (((95 : ℕ) : ℚ) / ((10 : ℕ) : ℚ)) from rfl, jsMathRound_95_10]
  decide

end Datagrid
